import Mathlib

/-!
Verification of the RCON client in `asa_ctrl/rcon.py`.

The Python module is shallowly embedded: byte strings become `List Nat`
(each entry one byte), machine integers become `Nat`/`Int` with explicit
`% 2^32` where the `struct` module packs or unpacks, exceptions become
`Except RconError`, and the socket is replaced by an explicit script of
receive results and readiness-poll results.  Strings on the wire are
modelled on the ASCII fragment of UTF-8 (every command and body used by
the specification is ASCII), so `encode('utf-8')` is the character-code
map and lossy decoding is its inverse.
-/

namespace AsaRcon

/-- Packet type constants from `asa_ctrl/constants.py` (`RconPacketTypes`). -/
def RESPONSE_VALUE : Int := 0

/-- `EXEC_COMMAND = 2` from `RconPacketTypes`. -/
def EXEC_COMMAND : Int := 2

/-- `AUTH = 3` from `RconPacketTypes`. -/
def AUTH : Int := 3

/-- `RconClient.MAX_PACKET_SIZE`. -/
def MAX_PACKET_SIZE : Nat := 4096

/-- `RconClient.MAX_COMMAND_LENGTH`. -/
def MAX_COMMAND_LENGTH : Nat := 1000

/-- The exception classes the RCON client raises (`asa_ctrl/errors.py`,
plus Python's built-in `ValueError`). -/
inductive RconError where
  | valueError : String → RconError
  | packetError : String → RconError
  | timeoutError : String → RconError
  | connectionError : String → RconError
  | authenticationError : String → RconError
deriving DecidableEq, Repr

/-- The exception tuple caught by `RconClient._with_retry` (line 180):
`socket.timeout` and `socket.error` are always normalized by the receive
helpers into `RconTimeoutError` / `RconConnectionError` before they can
escape an operation, so the retried kinds are packet, timeout and
connection errors. -/
def retryable : RconError → Bool
  | .packetError _ => true
  | .timeoutError _ => true
  | .connectionError _ => true
  | _ => false

/-- Little-endian encoding of a 32-bit unsigned value (`struct.pack('<I', n)`). -/
def le32 (n : Nat) : List Nat :=
  [n % 256, n / 256 % 256, n / 65536 % 256, n / 16777216 % 256]

/-- Little-endian decoding of the first four bytes (`struct.unpack('<I', ...)`. -/
def decU32 (b : List Nat) : Nat :=
  b.headD 0 + 256 * ((b.drop 1).headD 0 + 256 * ((b.drop 2).headD 0 + 256 * (b.drop 3).headD 0))

/-- Reinterpret a 32-bit unsigned value as signed two's complement
(`struct.unpack('<i', ...)` versus `'<I'`). -/
def toSigned32 (n : Nat) : Int :=
  if n < 2 ^ 31 then (n : Int) else (n : Int) - 2 ^ 32

/-- `struct.pack('<i', i)`: encode a signed 32-bit value little-endian. -/
def encInt32 (i : Int) : List Nat :=
  le32 (i % 2 ^ 32).toNat

/-- ASCII model of `str.encode('utf-8')`. -/
def strToBytes (s : String) : List Nat :=
  s.data.map Char.toNat

/-- ASCII model of `bytes.decode('utf-8', errors='replace')`. -/
def bytesToStr (l : List Nat) : String :=
  String.mk (l.map Char.ofNat)

/-- `RconClient._extract_body_bytes` (rcon.py lines 369-378): strip one
trailing NUL, then truncate at the first remaining NUL (`bytes.find`
returns the length-taking slice unchanged when no NUL is present, which
`List.findIdx` models since it returns the length on failure). -/
def extract_body_bytes (b : List Nat) : List Nat :=
  let b1 := if b ≠ [] ∧ b.getLast? = some 0 then b.dropLast else b
  b1.take (b1.findIdx (· = 0))

/-- The ASCII whitespace characters `str.strip` removes
(space, tab, newline, carriage return, vertical tab, form feed). -/
def isStripped (c : Char) : Bool :=
  c = ' ' ∨ c = '\t' ∨ c = '\n' ∨ c = '\r' ∨ c.toNat = 11 ∨ c.toNat = 12

/-- Python `str.strip()` on the ASCII fragment: drop leading and
trailing whitespace. -/
def pyStrip (s : String) : String :=
  String.mk (((s.data.dropWhile isStripped).reverse.dropWhile isStripped).reverse)

/-- `RconClient._validate_command` (rcon.py lines 111-138). -/
def validate_command (command : String) : Except RconError String :=
  if command = "" then
    .error (.valueError "Command must be a non-empty string")
  else
    let c := pyStrip command
    if c.length > MAX_COMMAND_LENGTH then
      .error (.valueError "Command too long")
    else
      let c2 := String.mk (c.data.filter fun ch =>
        32 ≤ ch.toNat ∨ ch = '\t' ∨ ch = '\n' ∨ ch = '\r')
      if c2 = "" then
        .error (.valueError "Command contains only invalid characters")
      else
        .ok c2

/-- `packet_id = int(time.time()) % 2**31` (rcon.py line 286); `t` is the
integer timestamp. -/
def genPacketId (t : Nat) : Nat :=
  t % 2 ^ 31

/-- The `RconPacket` named tuple (rcon.py lines 27-32). -/
structure RconPacket where
  size : Int
  id : Int
  type : Int
  body : String
deriving DecidableEq, Repr

/-- The connection-related attributes of `RconClient`: `self.socket`
(present or dropped), `self._connected` and `self._authenticated`. -/
structure ClientState where
  hasSocket : Bool
  connected : Bool
  authenticated : Bool
deriving DecidableEq, Repr

/-- Mock of the server side of the TCP stream: `recvs` lists the outcome
of each successive `_receive_full_packet` call (a full frame, or the
normalized error that call raises); `polls` lists the outcome of each
successive `_wait_for_additional_packet` readiness check.  An exhausted
`recvs` models a read that blocks until the read timeout; an exhausted
`polls` models a poll window that passes with no data ready. -/
structure Script where
  recvs : List (Except RconError (List Nat))
  polls : List Bool
deriving Repr

/-- Socket operations, recorded so that absence of I/O is observable. -/
inductive IoEvent where
  | connect : IoEvent
  | send : IoEvent
  | recv : IoEvent
deriving DecidableEq, Repr

/-- Result of the receive/aggregate loop inside `_send_packet`:
the packet returned (or error raised), whether `_drain_socket` ran
before control left the loop, the I/O performed, and the unconsumed
remainder of the script. -/
structure LoopOut where
  result : Except RconError RconPacket
  drained : Bool
  events : List IoEvent
  recvsRest : List (Except RconError (List Nat))
  pollsRest : List Bool
deriving Repr

/-- The `while True` receive loop of `_send_packet` (rcon.py lines
303-361), with the state variables `combined_body`, `response_count` and
`response_type`.  Each iteration consumes one scripted
`_receive_full_packet` outcome; `finishLoop` below is the code after the
loop (decode, drain, return). -/
def finishLoop (packetId : Nat) (packet_type : Int) (combined : List Nat)
    (rtype : Option Int) (events : List IoEvent)
    (recvsRest : List (Except RconError (List Nat))) (pollsRest : List Bool) : LoopOut :=
  -- `RconPacket(10 + len(combined_body), packet_id, response_type or packet_type, body)`
  -- (line 361): Python `or` falls back to `packet_type` when
  -- `response_type` is `None` *or equals 0*, since `0` is falsy.
  let retType : Int := match rtype with
    | none => packet_type
    | some x => if x = 0 then packet_type else x
  { result := .ok ⟨10 + (combined.length : Int), (packetId : Int), retType, bytesToStr combined⟩
    drained := true
    events := events
    recvsRest := recvsRest
    pollsRest := pollsRest }

def recvLoop (packet_type : Int) (packetId : Nat) :
    List (Except RconError (List Nat)) → List Bool → List Nat → Nat → Option Int → LoopOut
  | [], polls, combined, count, rtype =>
      -- the blocking read runs out of scripted data and hits the read
      -- timeout: `except RconTimeoutError: if response_count: break / raise`
      if count ≠ 0 then
        finishLoop packetId packet_type combined rtype [.recv] [] polls
      else
        ⟨.error (.timeoutError "Timeout while receiving data"), false, [.recv], [], polls⟩
  | .error e :: rest, polls, combined, count, rtype =>
      match e with
      | .timeoutError m =>
          if count ≠ 0 then
            finishLoop packetId packet_type combined rtype [.recv] rest polls
          else
            ⟨.error (.timeoutError m), false, [.recv], rest, polls⟩
      | e' =>
          -- RconPacketError / RconConnectionError from `_receive_full_packet`
          -- propagate out of the loop uncaught.
          ⟨.error e', false, [.recv], rest, polls⟩
  | .ok data :: rest, polls, combined, count, rtype =>
      -- `_validate_packet_data(response_data)` (lines 140-158, min size 12)
      if data = [] then
        ⟨.error (.packetError "Received empty packet"), false, [.recv], rest, polls⟩
      else if data.length < 12 then
        ⟨.error (.packetError "Packet too small"), false, [.recv], rest, polls⟩
      else if data.length > MAX_PACKET_SIZE then
        ⟨.error (.packetError "Packet too large"), false, [.recv], rest, polls⟩
      else
        -- `struct.unpack('<Iii', response_data[:12])`
        let declared_size := decU32 data
        let response_id := toSigned32 (decU32 (data.drop 4))
        let current_type := toSigned32 (decU32 (data.drop 8))
        if declared_size < 10 then
          ⟨.error (.packetError "Invalid response size"), false, [.recv], rest, polls⟩
        else if declared_size ≠ data.length - 4 then
          ⟨.error (.packetError "Size mismatch"), false, [.recv], rest, polls⟩
        else if packet_type = AUTH ∧ response_id = -1 then
          -- auth failure sentinel: decode this packet's own body, drain, return
          ⟨.ok ⟨(declared_size : Int), response_id, current_type,
              bytesToStr (extract_body_bytes (data.drop 12))⟩,
            true, [.recv], rest, polls⟩
        else if response_id ≠ (packetId : Int) then
          if count = 0 then
            ⟨.error (.packetError "Unexpected response ID"), true, [.recv], rest, polls⟩
          else
            -- different ID after accepted packets: stop accumulating
            finishLoop packetId packet_type combined rtype [.recv] rest polls
        else
          let rtype' : Option Int := match rtype with
            | none => some current_type
            | some x => some x
          let body_bytes := extract_body_bytes (data.drop 12)
          if body_bytes = [] then
            finishLoop packetId packet_type combined rtype' [.recv] rest polls
          else
            let combined' := combined ++ body_bytes
            match polls with
            | [] => finishLoop packetId packet_type combined' rtype' [.recv] rest []
            | p :: ps =>
                if p then
                  let lo := recvLoop packet_type packetId rest ps combined' (count + 1) rtype'
                  { lo with events := .recv :: lo.events }
                else
                  finishLoop packetId packet_type combined' rtype' [.recv] rest ps

/-- Result of one client operation: the value returned or exception
raised, the I/O performed, the unconsumed script, and the client state
left behind. -/
structure OpOut (α : Type) where
  result : Except RconError α
  events : List IoEvent
  script : Script
  st : ClientState

/-- Result of `_send_packet` proper, which additionally exposes whether
the socket was drained before control returned. -/
structure SendOut where
  result : Except RconError RconPacket
  drained : Bool
  events : List IoEvent
  script : Script
  st : ClientState

/-- `RconClient._send_packet` (rcon.py lines 262-367).  `t` is the value
of `int(time.time())` at the send.  Sending itself succeeds (the mock
scripts the response stream); `except socket.error` at line 365 clears
`_connected`, which in this embedding applies to the normalized
`RconConnectionError` raised by the receive helpers (they clear the flag
themselves at lines 464 and 495). -/
def lostConnection (r : Except RconError RconPacket) : Bool :=
  match r with
  | .error (.connectionError _) => true
  | _ => false

def send_packet (st : ClientState) (sc : Script) (t : Nat) (data : String)
    (packet_type : Int) : SendOut :=
  if ¬ st.hasSocket ∨ ¬ st.connected then
    ⟨.error (.connectionError "Socket not connected"), false, [], sc, st⟩
  else
    match (if packet_type = EXEC_COMMAND then validate_command data else .ok data) with
    | .error e => ⟨.error e, false, [], sc, st⟩
    | .ok _ =>
        let lo := recvLoop packet_type (genPacketId t) sc.recvs sc.polls [] 0 none
        ⟨lo.result, lo.drained, .send :: lo.events, ⟨lo.recvsRest, lo.pollsRest⟩,
          { st with connected := st.connected && !lostConnection lo.result }⟩

/-- `RconClient._authenticate` (rcon.py lines 499-521). -/
def authenticate (t : Nat) (password : String) (st : ClientState) (sc : Script) :
    OpOut Bool :=
  let so := send_packet st sc t password AUTH
  match so.result with
  | .error e =>
      ⟨.error e, so.events, so.script, { so.st with authenticated := false }⟩
  | .ok p =>
      if p.id = -1 then
        ⟨.error (.authenticationError
            "RCON authentication failed: server returned -1 response ID"),
          so.events, so.script, { so.st with authenticated := false }⟩
      else
        ⟨.ok true, so.events, so.script, { so.st with authenticated := true }⟩

/-- `RconClient._with_retry` (rcon.py lines 160-198) specialised to
operations over the mock script.  `n` is the number of retries still
allowed (`self.retry_count - attempt`): on a retryable failure with
retries remaining the state is reset to disconnected (socket closed and
dropped) and the operation re-runs on the remaining script; on the last
attempt the loop breaks and the final exception is re-raised with the
client state left exactly as the failing attempt left it. -/
def with_retry {α : Type} (op : ClientState → Script → OpOut α) :
    Nat → ClientState → Script → OpOut α
  | n, st, sc =>
      let o := op st sc
      match o.result with
      | .ok _ => o
      | .error e =>
          if retryable e then
            match n with
            | 0 => o
            | n + 1 =>
                let o' := with_retry op n ⟨false, false, false⟩ o.script
                { o' with events := o.events ++ o'.events }
          else o

/-- The `_execute_once` closure inside `execute_command` (rcon.py lines
594-600). -/
def execute_once (command : String) (t : Nat) (st : ClientState) (sc : Script) :
    OpOut String :=
  let so := send_packet st sc t command EXEC_COMMAND
  match so.result with
  | .error e => ⟨.error e, so.events, so.script, so.st⟩
  | .ok p =>
      if p.type = RESPONSE_VALUE then
        ⟨.ok p.body, so.events, so.script, so.st⟩
      else
        ⟨.error (.packetError "Unexpected response type"), so.events, so.script, so.st⟩

/-- The `_connect_once` closure inside `connect` (rcon.py lines 540-566).
The TCP handshake itself succeeds in the mock (the script drives
everything from the first read on); creating and connecting the socket
sets `_connected = True` and is the `connect` I/O event, after which
`_authenticate` runs and its exceptions propagate. -/
def connect_once (t : Nat) (password : String) (st : ClientState) (sc : Script) :
    OpOut Unit :=
  let st1 : ClientState := ⟨true, true, st.authenticated⟩
  let ao := authenticate t password st1 sc
  ⟨ao.result.map fun _ => (), .connect :: ao.events, ao.script, ao.st⟩

/-- `RconClient.connect` (rcon.py lines 523-569): no-op when already
connected and authenticated, otherwise `_connect_once` under
`_with_retry` with `retry_count` retries. -/
def connect (retry_count t : Nat) (password : String) (st : ClientState) (sc : Script) :
    OpOut Unit :=
  if st.connected ∧ st.authenticated then ⟨.ok (), [], sc, st⟩
  else with_retry (connect_once t password) retry_count st sc

/-- `RconClient.execute_command` (rcon.py lines 571-608).  The trailing
`result is None` / `isinstance` normalisation (lines 604-608) is the
identity here: `_execute_once` always returns the response body string. -/
def execute_command (retry_count t : Nat) (password : String) (st : ClientState)
    (sc : Script) (command : String) : OpOut String :=
  if command = "" then
    ⟨.error (.valueError "Command must be a non-empty string"), [], sc, st⟩
  else
    let co := if ¬ (st.connected ∧ st.authenticated) then
        connect retry_count t password st sc
      else ⟨.ok (), [], sc, st⟩
    match co.result with
    | .error e => ⟨.error e, co.events, co.script, co.st⟩
    | .ok _ =>
        let r := with_retry (execute_once command t) retry_count co.st co.script
        { r with events := co.events ++ r.events }


deriving instance DecidableEq for Except

/-- A server response frame: `size, id, type` packed little-endian as in
`struct.pack('<Iii', ...)` followed by the body and two NUL terminators
(the wire layout of rcon.py lines 288-292 and 314-319). -/
def mkResponse (i ty : Int) (body : List Nat) : List Nat :=
  le32 (10 + body.length) ++ encInt32 i ++ encInt32 ty ++ body ++ [0, 0]

/-- Truncating a list at its first zero yields a zero-free prefix. -/
theorem take_findIdx_zero (l : List Nat) :
    (0 : Nat) ∉ l.take (l.findIdx (· = 0)) ∧
      ∃ s, l.take (l.findIdx (· = 0)) ++ s = l := by
  induction l with
  | nil => exact ⟨by simp, [], rfl⟩
  | cons a l ih =>
      by_cases ha : a = 0
      · subst ha
        refine ⟨by simp [List.findIdx_cons], 0 :: l, by simp [List.findIdx_cons]⟩
      · obtain ⟨hmem, s, hs⟩ := ih
        refine ⟨?_, s, ?_⟩
        · simp only [List.findIdx_cons, ha, decide_False, cond_false, List.take_succ_cons,
            List.mem_cons]
          rintro (h | h)
          · exact ha h.symm
          · exact hmem h
        · simp only [List.findIdx_cons, ha, decide_False, cond_false, List.take_succ_cons,
            List.cons_append, hs]

/-- C10: `_extract_body_bytes` returns a prefix of its input (at most
one trailing NUL removed, then truncated at the first remaining NUL),
and the returned bytes never contain a 0x00 byte. -/
theorem c10_extract_body_prefix_and_nul_free (b : List Nat) :
    (∃ s, extract_body_bytes b ++ s = b) ∧ (0 : Nat) ∉ extract_body_bytes b := by
  unfold extract_body_bytes
  by_cases hb : b ≠ [] ∧ b.getLast? = some 0
  · rw [if_pos hb]
    obtain ⟨hmem, s, hs⟩ := take_findIdx_zero b.dropLast
    refine ⟨⟨s ++ [b.getLast hb.1], ?_⟩, hmem⟩
    rw [← List.append_assoc, hs]
    exact List.dropLast_append_getLast hb.1
  · rw [if_neg hb]
    obtain ⟨hmem, s, hs⟩ := take_findIdx_zero b
    exact ⟨⟨s, hs⟩, hmem⟩

/-- Decoding the four little-endian bytes of a 32-bit value recovers it,
also when further bytes follow. -/
theorem decU32_le32_append (n : Nat) (rest : List Nat) (h : n < 2 ^ 32) :
    decU32 (le32 n ++ rest) = n := by
  simp only [le32, List.cons_append, List.nil_append, decU32, List.headD_cons,
    List.drop_succ_cons, List.drop_zero]
  omega

/-- Signed 32-bit round trip: packing with `'<i'` and unpacking the same
four bytes with `'<i'` preserves every in-range value. -/
theorem toSigned32_encInt32_append (i : Int) (rest : List Nat)
    (h1 : -(2 ^ 31) ≤ i) (h2 : i < 2 ^ 31) :
    toSigned32 (decU32 (encInt32 i ++ rest)) = i := by
  simp only [encInt32, le32, List.cons_append, List.nil_append, decU32, List.headD_cons,
    List.drop_succ_cons, List.drop_zero, toSigned32]
  split <;> omega

theorem length_mkResponse (i ty : Int) (body : List Nat) :
    (mkResponse i ty body).length = 14 + body.length := by
  simp [mkResponse, le32, encInt32]
  omega

theorem decU32_mkResponse (i ty : Int) (body : List Nat) (h : 10 + body.length < 2 ^ 32) :
    decU32 (mkResponse i ty body) = 10 + body.length := by
  exact decU32_le32_append _ _ h

theorem drop4_mkResponse (i ty : Int) (body : List Nat) :
    (mkResponse i ty body).drop 4 = encInt32 i ++ (encInt32 ty ++ (body ++ [0, 0])) := by
  simp [mkResponse, le32, List.cons_append]

theorem drop8_mkResponse (i ty : Int) (body : List Nat) :
    (mkResponse i ty body).drop 8 = encInt32 ty ++ (body ++ [0, 0]) := by
  simp [mkResponse, le32, encInt32, List.cons_append]

theorem drop12_mkResponse (i ty : Int) (body : List Nat) :
    (mkResponse i ty body).drop 12 = body ++ [0, 0] := by
  simp [mkResponse, le32, encInt32, List.cons_append]

/-- The first zero in `body ++ [0]` sits right after a zero-free body. -/
theorem findIdx_zero_append (body : List Nat) (h : (0 : Nat) ∉ body) :
    (body ++ [0]).findIdx (· = 0) = body.length := by
  induction body with
  | nil => simp [List.findIdx_cons]
  | cons a l ih =>
      have ha : a ≠ 0 := fun hc => h (by simp [hc])
      have hl : (0 : Nat) ∉ l := fun hc => h (List.mem_cons_of_mem _ hc)
      simp only [List.cons_append, List.findIdx_cons, ha, decide_False, cond_false,
        List.length_cons, ih hl]

/-- On a frame tail `body ++ [0, 0]` with a NUL-free body,
`_extract_body_bytes` recovers exactly the body. -/
theorem extract_body_bytes_frame (body : List Nat) (h : (0 : Nat) ∉ body) :
    extract_body_bytes (body ++ [0, 0]) = body := by
  have hsplit : body ++ [0, 0] = (body ++ [0]) ++ [0] := by simp
  have hne : body ++ [0, 0] ≠ [] := by simp
  have hlast : (body ++ [0, 0]).getLast? = some 0 := by
    rw [hsplit, List.getLast?_concat]
  have hdrop : (body ++ [0, 0]).dropLast = body ++ [0] := by
    rw [hsplit, List.dropLast_concat]
  unfold extract_body_bytes
  rw [if_pos ⟨hne, hlast⟩, hdrop]
  show (body ++ [0]).take ((body ++ [0]).findIdx (· = 0)) = body
  rw [findIdx_zero_append body h]
  exact List.take_left body [0]

/-- `_send_packet` on a connected socket with a valid `EXEC_COMMAND`
payload is the receive loop plus the `send` event and the
connection-loss bookkeeping. -/
theorem send_packet_exec_eq (st : ClientState) (recvs : List (Except RconError (List Nat)))
    (polls : List Bool) (t : Nat) (d d' : String)
    (hs : st.hasSocket = true) (hc : st.connected = true)
    (hv : validate_command d = .ok d') :
    send_packet st ⟨recvs, polls⟩ t d EXEC_COMMAND =
      (let lo := recvLoop EXEC_COMMAND (genPacketId t) recvs polls [] 0 none
       ⟨lo.result, lo.drained, .send :: lo.events, ⟨lo.recvsRest, lo.pollsRest⟩,
         { st with connected := st.connected && !lostConnection lo.result }⟩) := by
  rw [send_packet, if_neg, if_pos rfl, hv]
  simp [hs, hc]

/-- `_send_packet` on a connected socket for an `AUTH` packet skips
command validation. -/
theorem send_packet_auth_eq (st : ClientState) (recvs : List (Except RconError (List Nat)))
    (polls : List Bool) (t : Nat) (d : String)
    (hs : st.hasSocket = true) (hc : st.connected = true) :
    send_packet st ⟨recvs, polls⟩ t d AUTH =
      (let lo := recvLoop AUTH (genPacketId t) recvs polls [] 0 none
       ⟨lo.result, lo.drained, .send :: lo.events, ⟨lo.recvsRest, lo.pollsRest⟩,
         { st with connected := st.connected && !lostConnection lo.result }⟩) := by
  rw [send_packet, if_neg, if_neg (by norm_num [AUTH, EXEC_COMMAND])]
  simp [hs, hc]

/-- C9: every request packet id is `int(time.time()) % 2**31`, hence in
`[0, 2^31)`; as a signed value it is never negative and never the
authentication-failure sentinel `-1`. -/
theorem c9_packet_id_in_range (t : Nat) :
    genPacketId t = t % 2 ^ 31 ∧ genPacketId t < 2 ^ 31 ∧
      0 ≤ (genPacketId t : Int) ∧ (genPacketId t : Int) ≠ -1 := by
  refine ⟨rfl, Nat.mod_lt _ (by norm_num), Int.natCast_nonneg _, ?_⟩
  intro h
  have := Int.natCast_nonneg (genPacketId t)
  omega

section LoopSteps

variable (pt : Int) (pid : Nat) (ty : Int) (body : List Nat)
variable (rest : List (Except RconError (List Nat))) (polls ps : List Bool)
variable (combined : List Nat) (count : Nat) (rtype : Option Int)

/-- Dispatching one well-formed frame whose id echoes the request id,
whose body is non-empty and whose follow-up poll sees more data:
the loop accepts the body and keeps reading. -/
theorem recvLoop_accept_true
    (hpid : pid < 2 ^ 31) (hty1 : -(2 ^ 31) ≤ ty) (hty2 : ty < 2 ^ 31)
    (hb0 : (0 : Nat) ∉ body) (hbne : body ≠ []) (hblen : body.length ≤ 4082) :
    recvLoop pt pid (.ok (mkResponse (pid : Int) ty body) :: rest) (true :: ps)
        combined count rtype
      = (let lo := recvLoop pt pid rest ps (combined ++ body) (count + 1)
            (some (rtype.getD ty))
         { lo with events := .recv :: lo.events }) := by
  have hlen : (mkResponse (pid : Int) ty body).length = 14 + body.length :=
    length_mkResponse _ _ _
  have hne : mkResponse (pid : Int) ty body ≠ [] := by
    intro hc
    rw [hc] at hlen
    simp only [List.length_nil] at hlen
    omega
  have hdec : decU32 (mkResponse (pid : Int) ty body) = 10 + body.length :=
    decU32_mkResponse _ _ _ (by omega)
  have hid : toSigned32 (decU32 ((mkResponse (pid : Int) ty body).drop 4)) = (pid : Int) := by
    rw [drop4_mkResponse]
    exact toSigned32_encInt32_append _ _ (by omega) (by exact_mod_cast hpid)
  have hcur : toSigned32 (decU32 ((mkResponse (pid : Int) ty body).drop 8)) = ty := by
    rw [drop8_mkResponse]
    exact toSigned32_encInt32_append _ _ hty1 hty2
  have hext : extract_body_bytes ((mkResponse (pid : Int) ty body).drop 12) = body := by
    rw [drop12_mkResponse]
    exact extract_body_bytes_frame _ hb0
  have hsent : ¬ (pt = AUTH ∧ (pid : Int) = -1) := by
    rintro ⟨-, hc⟩
    omega
  simp only [recvLoop, hne, hlen, hdec, hid, hcur, hext, if_false]
  have hA : ¬ (14 + body.length < 12) := by omega
  have hB : ¬ (14 + body.length > MAX_PACKET_SIZE) := by
    simp only [MAX_PACKET_SIZE]
    omega
  have hC : ¬ (10 + body.length < 10) := by omega
  have hD : ¬ (10 + body.length ≠ 14 + body.length - 4) := by omega
  have hE : ¬ ((pid : Int) ≠ (pid : Int)) := by simp
  rw [if_neg hA, if_neg hB, if_neg hC, if_neg hD, if_neg hsent, if_neg hE, if_neg hbne,
    if_pos trivial]
  cases rtype <;> rfl

/-- Same dispatch, but the follow-up poll sees no data: the loop stops
and returns the aggregate. -/
theorem recvLoop_accept_false
    (hpid : pid < 2 ^ 31) (hty1 : -(2 ^ 31) ≤ ty) (hty2 : ty < 2 ^ 31)
    (hb0 : (0 : Nat) ∉ body) (hbne : body ≠ []) (hblen : body.length ≤ 4082) :
    recvLoop pt pid (.ok (mkResponse (pid : Int) ty body) :: rest) (false :: ps)
        combined count rtype
      = finishLoop pid pt (combined ++ body) (some (rtype.getD ty)) [.recv] rest ps := by
  have hlen : (mkResponse (pid : Int) ty body).length = 14 + body.length :=
    length_mkResponse _ _ _
  have hne : mkResponse (pid : Int) ty body ≠ [] := by
    intro hc
    rw [hc] at hlen
    simp only [List.length_nil] at hlen
    omega
  have hdec : decU32 (mkResponse (pid : Int) ty body) = 10 + body.length :=
    decU32_mkResponse _ _ _ (by omega)
  have hid : toSigned32 (decU32 ((mkResponse (pid : Int) ty body).drop 4)) = (pid : Int) := by
    rw [drop4_mkResponse]
    exact toSigned32_encInt32_append _ _ (by omega) (by exact_mod_cast hpid)
  have hcur : toSigned32 (decU32 ((mkResponse (pid : Int) ty body).drop 8)) = ty := by
    rw [drop8_mkResponse]
    exact toSigned32_encInt32_append _ _ hty1 hty2
  have hext : extract_body_bytes ((mkResponse (pid : Int) ty body).drop 12) = body := by
    rw [drop12_mkResponse]
    exact extract_body_bytes_frame _ hb0
  have hsent : ¬ (pt = AUTH ∧ (pid : Int) = -1) := by
    rintro ⟨-, hc⟩
    omega
  simp only [recvLoop, hne, hlen, hdec, hid, hcur, hext, if_false]
  have hA : ¬ (14 + body.length < 12) := by omega
  have hB : ¬ (14 + body.length > MAX_PACKET_SIZE) := by
    simp only [MAX_PACKET_SIZE]
    omega
  have hC : ¬ (10 + body.length < 10) := by omega
  have hD : ¬ (10 + body.length ≠ 14 + body.length - 4) := by omega
  have hE : ¬ ((pid : Int) ≠ (pid : Int)) := by simp
  rw [if_neg hA, if_neg hB, if_neg hC, if_neg hD, if_neg hsent, if_neg hE, if_neg hbne,
    if_neg (by simp)]
  cases rtype <;> rfl

/-- A frame echoing the request id with an empty body terminates the
aggregation. -/
theorem recvLoop_empty_body
    (hpid : pid < 2 ^ 31) (hty1 : -(2 ^ 31) ≤ ty) (hty2 : ty < 2 ^ 31) :
    recvLoop pt pid (.ok (mkResponse (pid : Int) ty []) :: rest) polls combined count rtype
      = finishLoop pid pt combined (some (rtype.getD ty)) [.recv] rest polls := by
  have hlen : (mkResponse (pid : Int) ty []).length = 14 + ([] : List Nat).length :=
    length_mkResponse _ _ _
  have hne : mkResponse (pid : Int) ty [] ≠ [] := by
    intro hc
    rw [hc] at hlen
    simp only [List.length_nil] at hlen
    omega
  have hdec : decU32 (mkResponse (pid : Int) ty []) = 10 + ([] : List Nat).length :=
    decU32_mkResponse _ _ _ (by simp)
  have hid : toSigned32 (decU32 ((mkResponse (pid : Int) ty []).drop 4)) = (pid : Int) := by
    rw [drop4_mkResponse]
    exact toSigned32_encInt32_append _ _ (by omega) (by exact_mod_cast hpid)
  have hcur : toSigned32 (decU32 ((mkResponse (pid : Int) ty []).drop 8)) = ty := by
    rw [drop8_mkResponse]
    exact toSigned32_encInt32_append _ _ hty1 hty2
  have hext : extract_body_bytes ((mkResponse (pid : Int) ty []).drop 12) = [] := by
    rw [drop12_mkResponse]
    exact extract_body_bytes_frame _ (by simp)
  have hsent : ¬ (pt = AUTH ∧ (pid : Int) = -1) := by
    rintro ⟨-, hc⟩
    omega
  simp only [recvLoop, hne, hlen, hdec, hid, hcur, hext, if_false, List.length_nil]
  have hA : ¬ (14 + 0 < 12) := by omega
  have hB : ¬ (14 + 0 > MAX_PACKET_SIZE) := by
    simp only [MAX_PACKET_SIZE]
    omega
  have hC : ¬ (10 + 0 < 10) := by omega
  have hD : ¬ (10 + 0 ≠ 14 + 0 - 4) := by omega
  have hE : ¬ ((pid : Int) ≠ (pid : Int)) := by simp
  rw [if_neg hA, if_neg hB, if_neg hC, if_neg hD, if_neg hsent, if_neg hE, if_pos trivial]
  cases rtype <;> rfl

/-- A well-formed frame whose id does not echo the request id while at
least one packet has been accepted: stop without error, keeping only the
previous aggregate. -/
theorem recvLoop_mismatch_stop (j : Int)
    (hj1 : -(2 ^ 31) ≤ j) (hj2 : j < 2 ^ 31) (hjne : j ≠ (pid : Int)) (hjs : j ≠ -1)
    (hblen : body.length ≤ 4082) (hcount : count ≠ 0) :
    recvLoop pt pid (.ok (mkResponse j ty body) :: rest) polls combined count rtype
      = finishLoop pid pt combined rtype [.recv] rest polls := by
  have hlen : (mkResponse j ty body).length = 14 + body.length := length_mkResponse _ _ _
  have hne : mkResponse j ty body ≠ [] := by
    intro hc
    rw [hc] at hlen
    simp only [List.length_nil] at hlen
    omega
  have hdec : decU32 (mkResponse j ty body) = 10 + body.length :=
    decU32_mkResponse _ _ _ (by omega)
  have hid : toSigned32 (decU32 ((mkResponse j ty body).drop 4)) = j := by
    rw [drop4_mkResponse]
    exact toSigned32_encInt32_append _ _ hj1 hj2
  have hsent : ¬ (pt = AUTH ∧ j = -1) := by
    rintro ⟨-, hc⟩
    exact hjs hc
  simp only [recvLoop, hne, hlen, hdec, hid, if_false]
  have hA : ¬ (14 + body.length < 12) := by omega
  have hB : ¬ (14 + body.length > MAX_PACKET_SIZE) := by
    simp only [MAX_PACKET_SIZE]
    omega
  have hC : ¬ (10 + body.length < 10) := by omega
  have hD : ¬ (10 + body.length ≠ 14 + body.length - 4) := by omega
  rw [if_neg hA, if_neg hB, if_neg hC, if_neg hD, if_neg hsent, if_pos hjne, if_neg hcount]

/-- The same mismatched frame with no packet yet accepted: protocol
violation, drain and raise `RconPacketError`. -/
theorem recvLoop_mismatch_first (j : Int)
    (hj1 : -(2 ^ 31) ≤ j) (hj2 : j < 2 ^ 31) (hjne : j ≠ (pid : Int)) (hjs : j ≠ -1)
    (hblen : body.length ≤ 4082) :
    recvLoop pt pid (.ok (mkResponse j ty body) :: rest) polls combined 0 rtype
      = ⟨.error (.packetError "Unexpected response ID"), true, [.recv], rest, polls⟩ := by
  have hlen : (mkResponse j ty body).length = 14 + body.length := length_mkResponse _ _ _
  have hne : mkResponse j ty body ≠ [] := by
    intro hc
    rw [hc] at hlen
    simp only [List.length_nil] at hlen
    omega
  have hdec : decU32 (mkResponse j ty body) = 10 + body.length :=
    decU32_mkResponse _ _ _ (by omega)
  have hid : toSigned32 (decU32 ((mkResponse j ty body).drop 4)) = j := by
    rw [drop4_mkResponse]
    exact toSigned32_encInt32_append _ _ hj1 hj2
  have hsent : ¬ (pt = AUTH ∧ j = -1) := by
    rintro ⟨-, hc⟩
    exact hjs hc
  simp only [recvLoop, hne, hlen, hdec, hid, if_false]
  have hA : ¬ (14 + body.length < 12) := by omega
  have hB : ¬ (14 + body.length > MAX_PACKET_SIZE) := by
    simp only [MAX_PACKET_SIZE]
    omega
  have hC : ¬ (10 + body.length < 10) := by omega
  have hD : ¬ (10 + body.length ≠ 14 + body.length - 4) := by omega
  rw [if_neg hA, if_neg hB, if_neg hC, if_neg hD, if_neg hsent, if_pos hjne, if_pos trivial]

/-- During an `AUTH` exchange a frame whose id field decodes to `-1`
returns at once (drained) as the authentication-failure sentinel,
whatever its type field decodes to. -/
theorem recvLoop_auth_sentinel
    (hty1 : -(2 ^ 31) ≤ ty) (hty2 : ty < 2 ^ 31)
    (hb0 : (0 : Nat) ∉ body) (hblen : body.length ≤ 4082) :
    recvLoop AUTH pid (.ok (mkResponse (-1) ty body) :: rest) polls combined count rtype
      = ⟨.ok ⟨((10 + body.length : Nat) : Int), -1, ty, bytesToStr body⟩,
          true, [.recv], rest, polls⟩ := by
  have hlen : (mkResponse (-1) ty body).length = 14 + body.length := length_mkResponse _ _ _
  have hne : mkResponse (-1) ty body ≠ [] := by
    intro hc
    rw [hc] at hlen
    simp only [List.length_nil] at hlen
    omega
  have hdec : decU32 (mkResponse (-1) ty body) = 10 + body.length :=
    decU32_mkResponse _ _ _ (by omega)
  have hid : toSigned32 (decU32 ((mkResponse (-1) ty body).drop 4)) = -1 := by
    rw [drop4_mkResponse]
    exact toSigned32_encInt32_append _ _ (by omega) (by omega)
  have hcur : toSigned32 (decU32 ((mkResponse (-1) ty body).drop 8)) = ty := by
    rw [drop8_mkResponse]
    exact toSigned32_encInt32_append _ _ hty1 hty2
  have hext : extract_body_bytes ((mkResponse (-1) ty body).drop 12) = body := by
    rw [drop12_mkResponse]
    exact extract_body_bytes_frame _ hb0
  simp only [recvLoop, hne, hlen, hdec, hid, hcur, hext, if_false]
  have hA : ¬ (14 + body.length < 12) := by omega
  have hB : ¬ (14 + body.length > MAX_PACKET_SIZE) := by
    simp only [MAX_PACKET_SIZE]
    omega
  have hC : ¬ (10 + body.length < 10) := by omega
  have hD : ¬ (10 + body.length ≠ 14 + body.length - 4) := by omega
  rw [if_neg hA, if_neg hB, if_neg hC, if_neg hD, if_pos (by simp)]

end LoopSteps

/-- C8: with one packet already accepted for request id 7, a following
well-formed frame carrying a different id stops the aggregation without
error and its body is not included; the same mismatched frame arriving
before any accepted packet raises a packet error. -/
theorem c8_id_mismatch_behaviour (j : Int) (u w : List Nat)
    (hj1 : 0 ≤ j) (hj2 : j < 2 ^ 31) (hjne : j ≠ 7)
    (hu0 : (0 : Nat) ∉ u) (hune : u ≠ []) (hulen : u.length ≤ 4082)
    (hwlen : w.length ≤ 4082) :
    (send_packet ⟨true, true, true⟩
        ⟨[.ok (mkResponse 7 0 u), .ok (mkResponse j 0 w)], [true]⟩ 7 "saveworld"
        EXEC_COMMAND).result
      = .ok ⟨10 + (u.length : Int), 7, EXEC_COMMAND, bytesToStr u⟩ ∧
    (send_packet ⟨true, true, true⟩ ⟨[.ok (mkResponse j 0 w)], []⟩ 7 "saveworld"
        EXEC_COMMAND).result
      = .error (.packetError "Unexpected response ID") := by
  have hv : validate_command "saveworld" = .ok "saveworld" := by decide
  have hg : genPacketId 7 = 7 := by decide
  have h7 : (((7 : Nat) : Int)) = (7 : Int) := by norm_num
  have hjne7 : j ≠ ((7 : Nat) : Int) := by
    rw [h7]
    exact hjne
  have hjs : j ≠ -1 := by omega
  constructor
  · rw [send_packet_exec_eq _ _ _ _ _ _ rfl rfl hv]
    have step1 := recvLoop_accept_true EXEC_COMMAND 7 0 u [.ok (mkResponse j 0 w)] []
      [] 0 none (by norm_num) (by norm_num) (by norm_num) hu0 hune hulen
    rw [h7] at step1
    have step2 := recvLoop_mismatch_stop EXEC_COMMAND 7 0 w [] [] u 1 (some 0) j
      (by omega) hj2 hjne7 hjs hwlen (by omega)
    simp only [hg, step1, step2, List.nil_append, Option.getD_some, Option.getD_none,
      finishLoop, h7, if_true]
  · rw [send_packet_exec_eq _ _ _ _ _ _ rfl rfl hv]
    have step2 := recvLoop_mismatch_first EXEC_COMMAND 7 0 w [] [] [] none j
      (by omega) hj2 hjne7 hjs hwlen
    simp only [hg, step2]

/-- Whenever the receive loop returns a packet (normal aggregation or
the auth sentinel), it drained the socket first. -/
theorem recvLoop_ok_drained (pt : Int) (pid : Nat) :
    ∀ (recvs : List (Except RconError (List Nat))) (polls : List Bool)
      (combined : List Nat) (count : Nat) (rtype : Option Int) (p : RconPacket),
      (recvLoop pt pid recvs polls combined count rtype).result = .ok p →
      (recvLoop pt pid recvs polls combined count rtype).drained = true := by
  intro recvs
  induction recvs with
  | nil =>
      intro polls combined count rtype p
      simp only [recvLoop]
      split
      · intro h
        rfl
      · intro h
        simp at h
  | cons head rest ih =>
      intro polls combined count rtype p
      cases head with
      | error e =>
          clear ih
          intro h
          by_cases hc : count = 0 <;> cases e <;> simp_all [recvLoop, finishLoop]
      | ok data =>
          simp only [recvLoop]
          repeat' split
          all_goals intro h
          all_goals first
            | rfl
            | (dsimp only at h ⊢
               exact ih _ _ _ _ p h)
            | simp at h

/-- C7 (amended): every exit of `_send_packet` that returns a response
packet — the normal aggregated return and the auth-failure sentinel —
drains the socket before control returns to the caller. -/
theorem c7_success_exit_drains (st : ClientState) (sc : Script) (t : Nat) (d : String)
    (ty : Int) (p : RconPacket)
    (h : (send_packet st sc t d ty).result = .ok p) :
    (send_packet st sc t d ty).drained = true := by
  unfold send_packet at h ⊢
  by_cases hcase : ¬ st.hasSocket ∨ ¬ st.connected
  · rw [if_pos hcase] at h
    simp at h
  · rw [if_neg hcase] at h ⊢
    rcases hval : (if ty = EXEC_COMMAND then validate_command d else .ok d) with e | d'
    · rw [hval] at h
      simp at h
    · rw [hval] at h
      dsimp only at h ⊢
      exact recvLoop_ok_drained ty (genPacketId t) sc.recvs sc.polls [] 0 none p h

/-- C7 (counterexample): when the framed read itself raises a packet
error — here a frame whose declared size is invalid — `_send_packet`
propagates the error without draining the socket. -/
theorem c7_error_exit_no_drain :
    (send_packet ⟨true, true, true⟩ ⟨[.error (.packetError "Invalid packet size")], []⟩
        1000 "saveworld" EXEC_COMMAND).result
      = .error (.packetError "Invalid packet size") ∧
    (send_packet ⟨true, true, true⟩ ⟨[.error (.packetError "Invalid packet size")], []⟩
        1000 "saveworld" EXEC_COMMAND).drained = false := by decide

/-- C7 (witness). -/
theorem c7_success_exit_drains_witness :
    (send_packet ⟨true, true, true⟩ ⟨[.ok (mkResponse 7 0 (strToBytes "AAAA"))], [false]⟩
        7 "saveworld" EXEC_COMMAND).drained = true :=
  c7_success_exit_drains ⟨true, true, true⟩
    ⟨[.ok (mkResponse 7 0 (strToBytes "AAAA"))], [false]⟩ 7 "saveworld" EXEC_COMMAND
    ⟨14, 7, EXEC_COMMAND, "AAAA"⟩ (by decide)

/-- C3: unpacking the id bytes `FF FF FF FF` with the signed format
yields `-1` (not `4294967295`), and an `AUTH` exchange answered by a
frame whose id field is `-1` makes `_authenticate` raise
`RconAuthenticationError`, whatever value the frame's type field
carries. -/
theorem c3_auth_sentinel (τ : Int) (h1 : -(2 ^ 31) ≤ τ) (h2 : τ < 2 ^ 31) :
    toSigned32 (decU32 (encInt32 (-1))) = -1 ∧
    (authenticate 1000 "secret" ⟨true, true, false⟩
        ⟨[.ok (mkResponse (-1) τ [])], []⟩).result
      = .error (.authenticationError
          "RCON authentication failed: server returned -1 response ID") := by
  refine ⟨by decide, ?_⟩
  have hres : (send_packet ⟨true, true, false⟩ ⟨[.ok (mkResponse (-1) τ [])], []⟩
      1000 "secret" AUTH).result
      = .ok ⟨((10 + ([] : List Nat).length : Nat) : Int), -1, τ, bytesToStr []⟩ := by
    rw [send_packet_auth_eq _ _ _ _ _ rfl rfl]
    rw [recvLoop_auth_sentinel (genPacketId 1000) τ [] [] [] [] 0 none h1 h2
      (by simp) (by simp)]
  rw [authenticate, hres]
  rfl

/-- C3 (witness). -/
theorem c3_auth_sentinel_witness :
    toSigned32 (decU32 (encInt32 (-1))) = -1 ∧
    (authenticate 1000 "secret" ⟨true, true, false⟩
        ⟨[.ok (mkResponse (-1) 0 [])], []⟩).result
      = .error (.authenticationError
          "RCON authentication failed: server returned -1 response ID") :=
  c3_auth_sentinel 0 (by decide) (by decide)

/-- C6 (amended): when an attempt fails with a retried error kind and
retries remain, `_with_retry` resets the session to disconnected —
flags cleared and the socket closed and dropped — before the next
attempt runs on the remaining stream; with no retries left (`n = 0`,
the final attempt) the wrapper returns the attempt's outcome unchanged,
leaving the client state exactly as that attempt left it. -/
theorem c6_retry_reset_between_attempts {α : Type}
    (op : ClientState → Script → OpOut α) (n : Nat) (st : ClientState) (sc : Script)
    (e : RconError) (he : (op st sc).result = .error e) (hr : retryable e = true) :
    with_retry op (n + 1) st sc
      = (let o' := with_retry op n ⟨false, false, false⟩ (op st sc).script
         { o' with events := (op st sc).events ++ o'.events }) ∧
    with_retry op 0 st sc = op st sc := by
  constructor
  · conv_lhs => rw [with_retry]
    rw [he]
    simp only [hr, if_true]
  · conv_lhs => rw [with_retry]
    cases hres : (op st sc).result with
    | ok a => rfl
    | error e' => simp [ite_self]

/-- C6 (witness). -/
theorem c6_retry_reset_witness :
    with_retry (execute_once "saveworld" 1000) 1 ⟨true, true, true⟩
        ⟨[.error (.timeoutError "Timeout receiving packet")], []⟩
      = (let o' := with_retry (execute_once "saveworld" 1000) 0 ⟨false, false, false⟩
            (execute_once "saveworld" 1000 ⟨true, true, true⟩
              ⟨[.error (.timeoutError "Timeout receiving packet")], []⟩).script
         { o' with events := (execute_once "saveworld" 1000 ⟨true, true, true⟩
              ⟨[.error (.timeoutError "Timeout receiving packet")], []⟩).events
                ++ o'.events }) ∧
    with_retry (execute_once "saveworld" 1000) 0 ⟨true, true, true⟩
        ⟨[.error (.timeoutError "Timeout receiving packet")], []⟩
      = execute_once "saveworld" 1000 ⟨true, true, true⟩
          ⟨[.error (.timeoutError "Timeout receiving packet")], []⟩ :=
  c6_retry_reset_between_attempts (execute_once "saveworld" 1000) 0 ⟨true, true, true⟩
    ⟨[.error (.timeoutError "Timeout receiving packet")], []⟩
    (.timeoutError "Timeout receiving packet") (by decide) (by decide)

/-- C6 (counterexample): when the FINAL attempt fails with a retried
error kind, the connection and authentication flags are not cleared —
the reset only happens between attempts. -/
theorem c6_final_attempt_keeps_state :
    (with_retry (execute_once "saveworld" 1000) 0 ⟨true, true, true⟩
        ⟨[.error (.timeoutError "Timeout receiving packet")], []⟩).result
      = .error (.timeoutError "Timeout receiving packet") ∧
    (with_retry (execute_once "saveworld" 1000) 0 ⟨true, true, true⟩
        ⟨[.error (.timeoutError "Timeout receiving packet")], []⟩).st
      = ⟨true, true, true⟩ := by decide

/-- C5 (amended): a decoded response whose type is not `RESPONSE_VALUE`
makes `_execute_once` raise `RconPacketError` — one of the transient
kinds `_with_retry` retries — rather than a distinct non-retried
error. -/
theorem c5_unexpected_type_raises_retryable (st : ClientState) (sc : Script)
    (t : Nat) (cmd : String) (p : RconPacket)
    (hok : (send_packet st sc t cmd EXEC_COMMAND).result = .ok p)
    (hty : ¬ p.type = RESPONSE_VALUE) :
    (execute_once cmd t st sc).result = .error (.packetError "Unexpected response type") ∧
    retryable (.packetError "Unexpected response type") = true := by
  refine ⟨?_, rfl⟩
  rw [execute_once, hok]
  simp [hty]

/-- C5 (witness). -/
theorem c5_unexpected_type_witness :
    (execute_once "saveworld" 1000 ⟨true, true, true⟩
        ⟨[.ok (mkResponse 1000 2 (strToBytes "echo"))], []⟩).result
      = .error (.packetError "Unexpected response type") ∧
    retryable (.packetError "Unexpected response type") = true :=
  c5_unexpected_type_raises_retryable ⟨true, true, true⟩
    ⟨[.ok (mkResponse 1000 2 (strToBytes "echo"))], []⟩ 1000 "saveworld"
    ⟨14, 1000, 2, "echo"⟩ (by decide) (by decide)

/-- C5 (counterexample): the unexpected-response-type failure is
retried, not surfaced: with one retry allowed the wrapper runs a second
attempt (on the reset, disconnected state), so the caller sees that
second attempt's connection error, not the type error of the first. -/
theorem c5_unexpected_type_retried :
    (execute_once "saveworld" 1000 ⟨true, true, true⟩
        ⟨[.ok (mkResponse 1000 2 (strToBytes "echo"))], []⟩).result
      = .error (.packetError "Unexpected response type") ∧
    (with_retry (execute_once "saveworld" 1000) 1 ⟨true, true, true⟩
        ⟨[.ok (mkResponse 1000 2 (strToBytes "echo"))], []⟩).result
      = .error (.connectionError "Socket not connected") ∧
    (with_retry (execute_once "saveworld" 1000) 1 ⟨true, true, true⟩
        ⟨[.ok (mkResponse 1000 2 (strToBytes "echo"))], []⟩).st
      = ⟨false, false, false⟩ := by decide

/-- An operation failing with a non-retried error kind passes through
`_with_retry` unchanged, for every allowed retry count. -/
theorem with_retry_not_retryable {α : Type} (op : ClientState → Script → OpOut α)
    (n : Nat) (st : ClientState) (sc : Script) (e : RconError)
    (he : (op st sc).result = .error e) (hnr : retryable e = false) :
    with_retry op n st sc = op st sc := by
  conv_lhs => rw [with_retry.eq_def]
  simp [he, hnr]

/-- On a connected socket, a command rejected by `_validate_command`
makes `_send_packet` raise before any byte is sent or received. -/
theorem send_packet_invalid (st : ClientState) (sc : Script) (t : Nat) (d : String)
    (e : RconError) (hs : st.hasSocket = true) (hc : st.connected = true)
    (hv : validate_command d = .error e) :
    send_packet st sc t d EXEC_COMMAND = ⟨.error e, false, [], sc, st⟩ := by
  rw [send_packet, if_neg, if_pos rfl, hv]
  simp [hs, hc]

/-- C4 (amended): `execute_command` rejects the empty string before
anything else — no connect, send, or receive happens there, whatever
the session state; an over-long or control-character-only command is
rejected by `_validate_command` inside the send path, which on an
already connected-and-authenticated session likewise raises
`ValueError` with no socket I/O at all (when the session is
disconnected, connect and authentication I/O happens first — see the
counterexample). -/
theorem c4_invalid_commands_raise_value_error (rc t : Nat) (pw cmd m : String)
    (st st0 : ClientState) (sc sc0 : Script)
    (hsock : st.hasSocket = true) (hconn : st.connected = true)
    (hauth : st.authenticated = true)
    (hne : ¬ cmd = "") (hval : validate_command cmd = .error (.valueError m)) :
    ((execute_command rc t pw st0 sc0 "").result
        = .error (.valueError "Command must be a non-empty string") ∧
      (execute_command rc t pw st0 sc0 "").events = []) ∧
    ((execute_command rc t pw st sc cmd).result = .error (.valueError m) ∧
      (execute_command rc t pw st sc cmd).events = []) := by
  have honce : execute_once cmd t st sc = ⟨.error (.valueError m), [], sc, st⟩ := by
    rw [execute_once, send_packet_invalid st sc t cmd (.valueError m) hsock hconn hval]
  have hwr : with_retry (execute_once cmd t) rc st sc = execute_once cmd t st sc :=
    with_retry_not_retryable _ rc st sc (.valueError m) (by rw [honce]) rfl
  have hco : ¬ ¬ (st.connected = true ∧ st.authenticated = true) := by
    simp [hconn, hauth]
  refine ⟨⟨rfl, rfl⟩, ?_, ?_⟩ <;>
    · rw [execute_command, if_neg hne, if_neg hco]
      simp only [hwr, honce, List.nil_append]

/-- C4 (witness): the empty string on a disconnected session, and a
command of control characters only on an authenticated one. -/
theorem c4_invalid_commands_witness :
    ((execute_command 0 1000 "secret" ⟨false, false, false⟩ ⟨[], []⟩ "").result
        = .error (.valueError "Command must be a non-empty string") ∧
      (execute_command 0 1000 "secret" ⟨false, false, false⟩ ⟨[], []⟩ "").events = []) ∧
    ((execute_command 0 1000 "secret" ⟨true, true, true⟩ ⟨[], []⟩
          (String.mk [Char.ofNat 1, Char.ofNat 2, Char.ofNat 3])).result
        = .error (.valueError "Command contains only invalid characters") ∧
      (execute_command 0 1000 "secret" ⟨true, true, true⟩ ⟨[], []⟩
          (String.mk [Char.ofNat 1, Char.ofNat 2, Char.ofNat 3])).events = []) :=
  c4_invalid_commands_raise_value_error 0 1000 "secret"
    (String.mk [Char.ofNat 1, Char.ofNat 2, Char.ofNat 3])
    "Command contains only invalid characters" ⟨true, true, true⟩ ⟨false, false, false⟩
    ⟨[], []⟩ ⟨[], []⟩ rfl rfl rfl (by decide) (by decide)

set_option maxRecDepth 40000 in
/-- C4 (counterexample): on a session that is not yet connected, an
over-long command still raises the invalid-command `ValueError`, but
only after `connect` has performed socket I/O (TCP connect, the AUTH
send and the AUTH response receive), contradicting the claim that no
socket I/O occurs before the error. -/
theorem c4_invalid_command_preceded_by_io :
    (execute_command 0 1000 "secret" ⟨false, false, false⟩
        ⟨[.ok (mkResponse 1000 2 [])], []⟩
        (String.mk (List.replicate 1001 'x'))).result
      = .error (.valueError "Command too long") ∧
    (execute_command 0 1000 "secret" ⟨false, false, false⟩
        ⟨[.ok (mkResponse 1000 2 [])], []⟩
        (String.mk (List.replicate 1001 'x'))).events
      = [.connect, .send, .recv] := by decide

/-- C1: the end-to-end saveworld scenario.  The aggregation loop does
assemble the single `RESPONSE_VALUE` packet's body `"World Saved"`, but
line 361's `response_type or packet_type` replaces the falsy type `0`
with the request type `EXEC_COMMAND`, so the `_execute_once` check
`response.type == RESPONSE_VALUE` fails and `execute_command` raises
`RconPacketError` instead of returning `"World Saved"`. -/
theorem c1_saveworld_scenario_raises :
    (send_packet ⟨true, true, true⟩
        ⟨[.ok (mkResponse 1000 0 (strToBytes "World Saved"))], [false]⟩ 1000 "saveworld"
        EXEC_COMMAND).result
      = .ok ⟨21, 1000, EXEC_COMMAND, "World Saved"⟩ ∧
    (execute_command 0 1000 "secret" ⟨false, false, false⟩
        ⟨[.ok (mkResponse 1000 2 []), .ok (mkResponse 1000 0 (strToBytes "World Saved"))],
          [false]⟩ "saveworld").result
      = .error (.packetError "Unexpected response type") := by decide

/-- C2: the multi-packet aggregation scenario with request id 7.  The
loop concatenates `"AAAA"` and `"BBBB"` and stops at the empty body,
but the same `response_type or packet_type` truthiness slip stamps the
aggregate with type `EXEC_COMMAND`, so `execute_command` raises
`RconPacketError` instead of returning `"AAAABBBB"`. -/
theorem c2_multi_packet_aggregation_raises :
    (send_packet ⟨true, true, true⟩
        ⟨[.ok (mkResponse 7 0 (strToBytes "AAAA")), .ok (mkResponse 7 0 (strToBytes "BBBB")),
          .ok (mkResponse 7 0 [])], [true, true]⟩ 7 "saveworld" EXEC_COMMAND).result
      = .ok ⟨18, 7, EXEC_COMMAND, "AAAABBBB"⟩ ∧
    (execute_command 0 7 "secret" ⟨true, true, true⟩
        ⟨[.ok (mkResponse 7 0 (strToBytes "AAAA")), .ok (mkResponse 7 0 (strToBytes "BBBB")),
          .ok (mkResponse 7 0 [])], [true, true]⟩ "saveworld").result
      = .error (.packetError "Unexpected response type") := by decide

/-- C8 (witness). -/
theorem c8_id_mismatch_witness :
    (send_packet ⟨true, true, true⟩
        ⟨[.ok (mkResponse 7 0 (strToBytes "AAAA")),
          .ok (mkResponse 8 0 (strToBytes "unrelated"))], [true]⟩ 7 "saveworld"
        EXEC_COMMAND).result
      = .ok ⟨10 + ((strToBytes "AAAA").length : Int), 7, EXEC_COMMAND,
          bytesToStr (strToBytes "AAAA")⟩ ∧
    (send_packet ⟨true, true, true⟩ ⟨[.ok (mkResponse 8 0 (strToBytes "unrelated"))], []⟩
        7 "saveworld" EXEC_COMMAND).result
      = .error (.packetError "Unexpected response ID") :=
  c8_id_mismatch_behaviour 8 (strToBytes "AAAA") (strToBytes "unrelated")
    (by decide) (by decide) (by decide) (by decide) (by decide) (by decide) (by decide)

end AsaRcon
